import Mathlib

/-!
Verification development for the Multi-AI-Chat repository.

This file shallowly embeds the conversation-orchestration core of the
repository (the `App` component in `src/unnamed/part_001` and the provider
service in `src/services/geminiService.ts`, current revision) and proves the
frozen specification claims about it.

Modelling conventions:
* Machine-generated message ids (`safeRandomId`) and wall-clock timestamps
  (`Date.now()`) are determinized into a fresh-supply counter carried in the
  application state; no claim inspects the concrete id or timestamp values.
* External I/O (the LLM HTTP calls and the Gemini SDK `sendMessage`) is
  abstracted as outcome parameters supplied to each step, exactly as the spec
  treats the Response Generator as an external collaborator.
* JavaScript out-of-bounds array accesses (which would throw) are totalized
  with default values; every theorem that relies on an access being in bounds
  carries the corresponding non-emptiness hypothesis.
-/

namespace MultiAIChat

/-- `LLMProvider` from `src/types.ts`. -/
inductive LLMProvider where
  | gemini
  | openai
  | groq
  | perplexity
  | openrouter
  | openaiCompatible
  deriving DecidableEq, Repr

/-- Agent bubble color tags from `src/types.ts` (presets also use `rose`). -/
inductive AgentColor where
  | cyan
  | pink
  | emerald
  | amber
  | violet
  | rose
  deriving DecidableEq, Repr

/-- `AgentConfig` from `src/types.ts`. -/
structure AgentConfig where
  id : String
  name : String
  systemPrompt : String
  color : AgentColor
  avatarEmoji : String
  deriving DecidableEq, Repr

/-- `Message` from `src/types.ts`; `timestamp` is a natural number tick. -/
structure Message where
  id : String
  senderId : String
  text : String
  timestamp : Nat
  deriving DecidableEq, Repr

/-- `AppConfig` from `src/types.ts`. -/
structure AppConfig where
  apiKey : String
  provider : LLMProvider
  model : String
  agents : List AgentConfig
  topic : String
  maxTurns : Nat
  globalRules : String
  deriving DecidableEq, Repr

/-- `ChatStatus` from `src/types.ts`. -/
inductive ChatStatus where
  | IDLE
  | ACTIVE
  | PAUSED
  | COMPLETED
  | ERROR
  deriving DecidableEq, Repr

/-- Fallback agent used to totalize JavaScript array indexing that the code
only performs on non-empty rosters. -/
def defaultAgent : AgentConfig :=
  { id := "", name := "", systemPrompt := "", color := .cyan, avatarEmoji := "" }

/-- Model of the JavaScript `String.prototype.trim()` (and of Lean's
`String.trim`), written by structural recursion on the character list so the
kernel can evaluate it on concrete inputs. -/
def jsTrim (s : String) : String :=
  String.mk (((s.data.dropWhile Char.isWhitespace).reverse.dropWhile
    Char.isWhitespace).reverse)

/-- Model of `String.prototype.toLowerCase()`. -/
def jsToLower (s : String) : String :=
  String.mk (s.data.map Char.toLower)

/-- Model of `String.prototype.startsWith(pre)`. -/
def jsStartsWith (s pre : String) : Bool :=
  pre.data.isPrefixOf s.data

/-- Model of `String.prototype.slice(0, n)`: the first `n` characters. -/
def strTake (s : String) (n : Nat) : String :=
  String.mk (s.data.take n)

/-- `detectProviderFromApiKey` from `src/services/geminiService.ts`. -/
def detectProviderFromApiKey (apiKey : String) : LLMProvider :=
  let trimmed := jsTrim apiKey
  if trimmed = "" then .gemini
  else
    let lower := jsToLower trimmed
    if jsStartsWith trimmed "AIza" || jsStartsWith lower "ya29." then .gemini
    else if jsStartsWith trimmed "gsk_" then .groq
    else if jsStartsWith trimmed "pplx-" then .perplexity
    else if jsStartsWith trimmed "sk-or-" || jsStartsWith trimmed "or-" then .openrouter
    else if jsStartsWith trimmed "sk-" then .openai
    else .openaiCompatible

/-- `PROVIDER_MODEL_OPTIONS` from `src/services/geminiService.ts`,
as `(id, name)` pairs per provider. -/
def PROVIDER_MODEL_OPTIONS : LLMProvider → List (String × String)
  | .gemini =>
      [("gemini-2.5-flash", "Gemini 2.5 Flash"),
       ("gemini-2.0-flash", "Gemini 2.0 Flash"),
       ("gemini-2.0-flash-lite-preview-02-04", "Gemini 2.0 Flash Lite"),
       ("gemini-1.5-pro", "Gemini 1.5 Pro"),
       ("gemini-1.5-flash", "Gemini 1.5 Flash")]
  | .openai =>
      [("gpt-4o-mini", "GPT-4o Mini"), ("gpt-4o", "GPT-4o")]
  | .groq =>
      [("llama-3.3-70b-versatile", "Llama 3.3 70B Versatile"),
       ("mixtral-8x7b-32768", "Mixtral 8x7B")]
  | .perplexity =>
      [("llama-3.1-sonar-large-128k-chat", "Llama 3.1 Sonar Large"),
       ("llama-3.1-70b-instruct", "Llama 3.1 70B Instruct")]
  | .openrouter =>
      [("gpt-4o-mini", "GPT-4o Mini (via OpenRouter)"), ("deepseek-chat", "DeepSeek Chat")]
  | .openaiCompatible =>
      [("gpt-4o-mini", "GPT-4o Mini"), ("gpt-3.5-turbo", "GPT-3.5 Turbo")]

/-- `getDefaultModelForProvider` from `src/services/geminiService.ts`. -/
def getDefaultModelForProvider (provider : LLMProvider) : String :=
  ((PROVIDER_MODEL_OPTIONS provider).headD ("", "")).1

/-- Role tags of the OpenAI-style message list in `geminiService.ts`. -/
inductive OARole where
  | system
  | user
  | assistant
  deriving DecidableEq, Repr

/-- One entry of an OpenAI-style session message list. -/
structure OAMessage where
  role : OARole
  content : String
  deriving DecidableEq, Repr

/-- Modelled from the spec: the Gemini SDK `Chat` object created by
`ai.chats.create` is opaque in the repository; per §4.2/§4.3 of the spec it
holds the persona system instruction and the cumulative exchange history
(prompt/response pairs appended on success, untouched on failure). -/
structure GeminiSession where
  systemInstruction : String
  history : List (String × String)
  deriving DecidableEq, Repr

/-- The module-level mutable state of `geminiService.ts`:
`chatSessions`, `openAISessions`, `activeProvider`, `activeModel`,
`activeApiKey`. Session maps are association lists keyed by agent id. -/
structure ServiceState where
  chatSessions : List (String × GeminiSession)
  openAISessions : List (String × List OAMessage)
  activeProvider : LLMProvider
  activeModel : String
  activeApiKey : String
  deriving DecidableEq, Repr

/-- Initial module state of `geminiService.ts`. -/
def ServiceState.initial : ServiceState :=
  { chatSessions := [], openAISessions := [],
    activeProvider := .gemini, activeModel := "", activeApiKey := "" }

/-- Replace the binding of `k` in an association list (used for the
`sessions[agentId] = ...` updates). -/
def setAssoc {β : Type} (k : String) (v : β) : List (String × β) → List (String × β)
  | [] => [(k, v)]
  | (k', v') :: rest =>
      if k' = k then (k, v) :: rest else (k', v') :: setAssoc k v rest

/-- The combined system instruction built in `initializeChats`:
the template literal with the agent persona and the global rules. -/
def combinedSystemInstruction (agent : AgentConfig) (globalRules : String) : String :=
  "\n" ++ agent.systemPrompt ++ "\n\n【会議全体の重要ルール】\n" ++ globalRules ++ "\n"

/-- `initializeChats` from `src/services/geminiService.ts` (current revision,
the one validating `apiKey.trim()`).  The result pairs the thrown-or-ok
outcome with the post-call module state; a throw happens before any mutation,
so the error branch returns the state unchanged. -/
def initializeChats (st : ServiceState) (apiKey modelName : String)
    (agents : List AgentConfig) (globalRules : String) :
    Except String Unit × ServiceState :=
  let normalizedKey := jsTrim apiKey
  if normalizedKey = "" then
    (Except.error "API Key is required", st)
  else
    let activeProvider := detectProviderFromApiKey normalizedKey
    let activeModel :=
      if modelName = "" then getDefaultModelForProvider activeProvider else modelName
    let st1 : ServiceState :=
      { st with activeProvider := activeProvider, activeModel := activeModel,
                activeApiKey := normalizedKey,
                chatSessions := [], openAISessions := [] }
    if activeProvider = .gemini then
      (Except.ok (),
       { st1 with chatSessions :=
           agents.map fun agent =>
             (agent.id,
              { systemInstruction := combinedSystemInstruction agent globalRules,
                history := [] }) })
    else
      (Except.ok (),
       { st1 with openAISessions :=
           agents.map fun agent =>
             (agent.id,
              [{ role := .system,
                 content := combinedSystemInstruction agent globalRules }]) })

/-- Outcome of the Gemini SDK `session.sendMessage` call: a rejection with an
error message, or a resolved result whose `text` field may be absent. -/
inductive GeminiCall where
  | fail (msg : String)
  | ok (text : Option String)

/-- Outcome of the `fetch` call of the OpenAI-style branch: a transport
rejection, or an HTTP response with its `ok` flag, status code, body text,
and the result of `response.json()` plus the optional-chain extraction
`data.choices[0].message.content` (`Except.error` models a JSON parse throw). -/
inductive HttpCall where
  | netFail (msg : String)
  | resp (ok : Bool) (status : Nat) (bodyText : String)
      (parsed : Except String (Option String))

/-- The sentinel placeholder text used when a response is missing or empty. -/
def noResponseSentinel : String := "[No response generated]"

/-- `generateResponse` from `src/services/geminiService.ts`.  The pair holds
the returned/thrown outcome and the post-call module state (session memory is
mutated only on the success paths, exactly as in the source; the Gemini SDK
session append on success is modelled from the spec, §4.3). -/
def generateResponse (st : ServiceState) (agentId inputMessage : String)
    (gcall : GeminiCall) (hcall : HttpCall) :
    Except String String × ServiceState :=
  if st.activeProvider = .gemini then
    match st.chatSessions.lookup agentId with
    | none =>
        (Except.error ("Chat Session for agent " ++ agentId ++ " not initialized"), st)
    | some session =>
        match gcall with
        | .fail e => (Except.error e, st)
        | .ok text =>
            let answer := if text.getD "" = "" then noResponseSentinel else text.getD ""
            let session1 : GeminiSession :=
              { session with history := session.history ++ [(inputMessage, answer)] }
            (Except.ok answer,
             { st with chatSessions := setAssoc agentId session1 st.chatSessions })
  else
    match st.openAISessions.lookup agentId with
    | none =>
        (Except.error ("Chat Session for agent " ++ agentId ++ " not initialized"), st)
    | some messages =>
        match hcall with
        | .netFail e => (Except.error e, st)
        | .resp ok status bodyText parsed =>
            if !ok then
              (Except.error
                ("OpenAI API error (" ++ toString status ++ "): " ++ bodyText), st)
            else
              match parsed with
              | .error e => (Except.error e, st)
              | .ok content =>
                  let answer :=
                    if jsTrim (content.getD "") = "" then noResponseSentinel
                    else jsTrim (content.getD "")
                  let messages1 : List OAMessage :=
                    messages ++
                      [{ role := .user, content := inputMessage },
                       { role := .assistant, content := answer }]
                  (Except.ok answer,
                   { st with openAISessions := setAssoc agentId messages1 st.openAISessions })

/-- Whether a session exists for `agentId` in the provider branch that
`generateResponse` will take. -/
def hasSessionFor (st : ServiceState) (agentId : String) : Bool :=
  if st.activeProvider = .gemini then (st.chatSessions.lookup agentId).isSome
  else (st.openAISessions.lookup agentId).isSome

/-- Whether the external call outcome is a failure for the active provider:
a transport failure, a non-success HTTP status, or a JSON parse throw. -/
def externalCallFails (provider : LLMProvider) (gcall : GeminiCall) (hcall : HttpCall) : Bool :=
  if provider = .gemini then
    match gcall with
    | .fail _ => true
    | .ok _ => false
  else
    match hcall with
    | .netFail _ => true
    | .resp ok _ _ parsed =>
        !ok ||
        (match parsed with
         | .error _ => true
         | .ok _ => false)

/-- Whether the external call succeeded but produced a missing or
empty (after the code's trimming, where applied) response text. -/
def externalCallEmpty (provider : LLMProvider) (gcall : GeminiCall) (hcall : HttpCall) : Bool :=
  if provider = .gemini then
    match gcall with
    | .fail _ => false
    | .ok text => text.getD "" = ""
  else
    match hcall with
    | .netFail _ => false
    | .resp ok _ _ parsed =>
        ok &&
        (match parsed with
         | .error _ => false
         | .ok content => jsTrim (content.getD "") = "")

/-- `true` exactly on `Except.error`. -/
def isErr {ε α : Type} : Except ε α → Bool
  | .error _ => true
  | .ok _ => false

/-- Whitespace-run collapsing, the `text.replace(/\s+/g, ' ')` of
`buildLocalSummary`: every maximal run of whitespace becomes one space. -/
def collapseWhitespace (s : String) : String :=
  let step : Bool × List Char → Char → Bool × List Char := fun acc c =>
    if c.isWhitespace then
      (true, if acc.1 then acc.2 else acc.2 ++ [' '])
    else (false, acc.2 ++ [c])
  String.mk (s.data.foldl step (false, [])).2

/-- `buildLocalSummary` from `src/unnamed/part_001` (lines 21-34): the local
deterministic fallback summary.  `slice(-6)` keeps the last up-to-six
non-SYSTEM messages; each line is the whitespace-collapsed text cut to 120
characters, with an ellipsis exactly when the original text is longer than
120 characters. -/
def buildLocalSummary (messages : List Message) (topic : String) : String :=
  let nonSystem := messages.filter fun m => m.senderId ≠ "SYSTEM"
  let lastFew := nonSystem.drop (nonSystem.length - 6)
  let bullets := lastFew.map fun m =>
    let name := if m.senderId = "USER" then "User" else m.senderId
    let text := strTake (collapseWhitespace m.text) 120
    "• " ++ name ++ ": " ++ text ++ (if 120 < m.text.length then "…" else "")
  ("トピック: " ++ (if topic = "" then "未設定" else topic)) ++ "\n" ++
    (if bullets.length ≠ 0 then
      "直近の発言ハイライト:\n" ++ String.intercalate "\n" bullets
     else "直近の発言がありません。")

/-- The id of `SUMMARY_AGENT` in `src/unnamed/part_001`. -/
def SUMMARY_AGENT_ID : String := "SUMMARY"

/-- The React state owned by the `App` component plus the
`hasSummarizedRef` latch and the service module state it drives.
`freshCounter` determinizes `safeRandomId` and `Date.now()` (see header). -/
structure AppState where
  config : AppConfig
  messages : List Message
  status : ChatStatus
  turnCount : Nat
  currentSpeakerId : Option String
  hasSummarized : Bool
  isSummarizing : Bool
  svc : ServiceState
  freshCounter : Nat

/-- The initial component state: `IDLE`, empty transcript, zero turns,
no speaker, latch cleared. -/
def mkInitial (cfg : AppConfig) (svc : ServiceState) : AppState :=
  { config := cfg, messages := [], status := .IDLE, turnCount := 0,
    currentSpeakerId := none, hasSummarized := false, isSummarizing := false,
    svc := svc, freshCounter := 0 }

/-- `addMessage` from `src/unnamed/part_001`: appends a message with a fresh
id and the current timestamp (both drawn from the determinized supply). -/
def addMessage (st : AppState) (senderId text : String) : AppState :=
  { st with
      messages := st.messages ++
        [{ id := "id-" ++ toString st.freshCounter, senderId := senderId,
           text := text, timestamp := st.freshCounter }],
      freshCounter := st.freshCounter + 1 }

/-- `getEffectiveApiKey` from `src/unnamed/part_001`:
`config.apiKey?.trim() || ENV_API_KEY?.trim() || ''`. -/
def getEffectiveApiKey (envKey : String) (cfg : AppConfig) : String :=
  let provided := jsTrim cfg.apiKey
  let fallback := jsTrim envKey
  if provided ≠ "" then provided else if fallback ≠ "" then fallback else ""

/-- `resetConversationState` from `src/unnamed/part_001`. -/
def resetConversationState (st : AppState) : AppState :=
  { st with status := .IDLE, messages := [], turnCount := 0,
            currentSpeakerId := none, hasSummarized := false,
            isSummarizing := false }

/-- `handleStart` from `src/unnamed/part_001` (lines 339-377).  `envKey` is
the `ENV_API_KEY` build constant.  Presentation-only effects
(`setIsConfigOpen`) are omitted. -/
def handleStart (envKey : String) (st : AppState) : AppState :=
  if jsTrim st.config.topic = "" then st
  else
    let normalizedApiKey := getEffectiveApiKey envKey st.config
    if normalizedApiKey = "" then
      addMessage st "SYSTEM" "API Key is missing. Please check the configuration."
    else
      let provider := detectProviderFromApiKey normalizedApiKey
      let model :=
        (((PROVIDER_MODEL_OPTIONS provider).headD
            (getDefaultModelForProvider provider, ""))).1
      let cfg1 : AppConfig :=
        { st.config with apiKey := normalizedApiKey, provider := provider, model := model }
      let st1 : AppState :=
        { st with config := cfg1, messages := [], turnCount := 0,
                  status := .ACTIVE, hasSummarized := false, isSummarizing := false }
      match initializeChats st1.svc normalizedApiKey model cfg1.agents cfg1.globalRules with
      | (.error e, svc') =>
          let msg := "AIエージェントの初期化に失敗しました: " ++
            (if e = "" then "APIキーを確認してください。" else e)
          { addMessage { st1 with svc := svc' } "SYSTEM" msg with status := .ERROR }
      | (.ok _, svc') =>
          let st2 := addMessage { st1 with svc := svc' } "SYSTEM"
            ("Discussion Started: \"" ++ cfg1.topic ++ "\"")
          if cfg1.agents.length > 0 then
            { st2 with currentSpeakerId := some ((cfg1.agents.headD defaultAgent).id) }
          else st2

/-- `handleStop` from `src/unnamed/part_001`: moves to `COMPLETED`, emits a
system notice, clears the speaker pointer. -/
def handleStop (st : AppState) : AppState :=
  { addMessage { st with status := .COMPLETED } "SYSTEM"
      "ユーザーによって会話が終了しました。" with currentSpeakerId := none }

/-- `handleReset` from `src/unnamed/part_001`. -/
def handleReset (st : AppState) : AppState :=
  resetConversationState st

/-- `handleUserSubmit` from `src/unnamed/part_001` (lines 389-431), applied
to the submitted input text.  The blank-input guard (`!userInput.trim()`)
drops the submission before anything is appended. -/
def handleUserSubmit (envKey : String) (st : AppState) (text : String) : AppState :=
  if jsTrim text = "" then st
  else
    let st1 := addMessage st "USER" text
    if st1.status = .IDLE ∨ st1.status = .ERROR then
      let normalizedApiKey := getEffectiveApiKey envKey st1.config
      if normalizedApiKey = "" then
        addMessage st1 "SYSTEM" "Please enter an API Key to start."
      else
        let provider := detectProviderFromApiKey normalizedApiKey
        let model :=
          if st1.config.model ≠ "" then st1.config.model
          else
            (((PROVIDER_MODEL_OPTIONS provider).headD
                (getDefaultModelForProvider provider, ""))).1
        match initializeChats st1.svc normalizedApiKey model st1.config.agents
            st1.config.globalRules with
        | (.ok _, svc') =>
            let cfg1 : AppConfig :=
              { st1.config with apiKey := normalizedApiKey, provider := provider,
                                model := model }
            let st2 : AppState :=
              { st1 with svc := svc', config := cfg1, status := .ACTIVE }
            if st2.currentSpeakerId = none ∧ st2.config.agents.length > 0 then
              { st2 with currentSpeakerId := some ((st2.config.agents.headD defaultAgent).id) }
            else st2
        | (.error e, svc') =>
            addMessage { st1 with svc := svc' } "SYSTEM"
              ("Failed to initialize chat. " ++ (if e = "" then "Check API Key." else e))
    else if st1.status = .PAUSED ∨ st1.status = .COMPLETED then
      let st2 : AppState := { st1 with status := .ACTIVE }
      if st2.currentSpeakerId = none ∧ st2.config.agents.length > 0 then
        { st2 with currentSpeakerId := some ((st2.config.agents.headD defaultAgent).id) }
      else st2
    else st1

/-- `[...messages].reverse().find(m => m.senderId !== 'SYSTEM')` from
`processTurn`: the most recent non-SYSTEM message. -/
def lastContentMessage (messages : List Message) : Option Message :=
  messages.reverse.find? fun m => m.senderId ≠ "SYSTEM"

/-- The per-conversation turn budget `config.maxTurns * config.agents.length`. -/
def turnBudget (cfg : AppConfig) : Nat :=
  cfg.maxTurns * cfg.agents.length

/-- The prompt computation of `processTurn` (lines 577-593): the formatted
most recent non-SYSTEM message when the transcript is non-empty (raw topic
when every message is SYSTEM), the raw topic on an empty transcript for the
roster's first agent, and `none` — skip the execution — on an empty
transcript for any other speaker. -/
def turnPrompt (cfg : AppConfig) (messages : List Message) (speakerId : String) :
    Option String :=
  if messages.length > 0 then
    some (match lastContentMessage messages with
      | some m =>
          if m.senderId = "USER" then "ユーザーの発言: " ++ m.text
          else
            let senderName :=
              match cfg.agents.find? (fun a => a.id = m.senderId) with
              | some a => a.name
              | none => "Other"
            senderName ++ "の発言: " ++ m.text
      | none => cfg.topic)
  else if speakerId ≠ (cfg.agents.headD defaultAgent).id then none
  else some cfg.topic

/-- `processTurn` from `src/unnamed/part_001` (lines 567-615), the automatic
turn-execution step.  `gen` abstracts `generateResponse` (the external
collaborator); the second component records the generation call that was
made, as a `(speakerId, promptText)` pair, or `none` when no call was made.
The 1500 ms pacing delay is timing-only and not modelled. -/
def processTurn (gen : String → String → Except String String) (st : AppState) :
    AppState × Option (String × String) :=
  if st.status ≠ .ACTIVE then (st, none)
  else
    match st.currentSpeakerId with
    | none => (st, none)
    | some speakerId =>
      if st.turnCount ≥ turnBudget st.config then
        (addMessage { st with status := .COMPLETED } "SYSTEM"
          "Conversation Limit Reached.", none)
      else
        match turnPrompt st.config st.messages speakerId with
        | none => (st, none)
        | some promptText =>
          match gen speakerId promptText with
          | .ok responseText =>
              let st1 := addMessage st speakerId responseText
              let st2 := { st1 with turnCount := st1.turnCount + 1 }
              let currentIndex : Int :=
                match st2.config.agents.findIdx? (fun a => a.id = speakerId) with
                | some i => (i : Int)
                | none => -1
              let nextIndex := ((currentIndex + 1) % (st2.config.agents.length : Int)).toNat
              let nextSpeaker := some ((st2.config.agents.getD nextIndex defaultAgent).id)
              ({ st2 with currentSpeakerId := nextSpeaker },
               some (speakerId, promptText))
          | .error e =>
              (addMessage { st with status := .ERROR } "SYSTEM"
                ("LLM APIエラー: " ++
                  (if e = "" then "詳細不明です。APIキーとモデルを確認してください。" else e)),
               some (speakerId, promptText))

/-- The summary `useEffect` of `src/unnamed/part_001` (lines 630-659) with
its asynchronous completion serialized into one step: the guard checks
(status `COMPLETED`, one-shot `hasSummarizedRef` latch, non-empty
transcript), the latch set, the progress notice, and then the summary
message from the `generateMeetingSummary` outcome `r` — on failure the
deterministic local fallback built from the transcript snapshot the effect
captured.  The boolean reports whether the summarization routine ran. -/
def summaryEffect (st : AppState) (r : Except String String) : AppState × Bool :=
  if st.status ≠ .COMPLETED then (st, false)
  else if st.hasSummarized then (st, false)
  else if st.messages.length = 0 then (st, false)
  else
    let snapshot := st.messages
    let topic := st.config.topic
    let st1 := addMessage
      { st with hasSummarized := true, isSummarizing := true }
      "SYSTEM" "議事録をまとめています..."
    match r with
    | .ok summary =>
        ({ addMessage st1 SUMMARY_AGENT_ID summary with isSummarizing := false }, true)
    | .error e =>
        let text := "要約生成に失敗しました: " ++
          (if e = "" then "理由不明のエラー" else e) ++
          "\n\nローカル要約:\n" ++ buildLocalSummary snapshot topic
        ({ addMessage st1 SUMMARY_AGENT_ID text with isSummarizing := false }, true)

/-- Iterate `n` successful automatic turns: the `k`-th generation call
returns `resp` applied to the turn count at that point. -/
def runTurns (resp : Nat → String) : Nat → AppState → AppState
  | 0, st => st
  | n + 1, st =>
      runTurns resp n (processTurn (fun _ _ => Except.ok (resp st.turnCount)) st).1

/-- One observable step of the running application that is not a reset:
a fire of the summary effect (with the external summary outcome), an
automatic turn (with the external generation outcome), a user submission,
or a stop.  Used to state the one-shot summary-latch property. -/
inductive ObsStep where
  | summary (r : Except String String)
  | turn (gen : String → String → Except String String)
  | submit (envKey text : String)
  | stop

/-- Apply one non-reset step; the boolean reports whether the summarization
routine was invoked by this step. -/
def obsApply (st : AppState) : ObsStep → AppState × Bool
  | .summary r => summaryEffect st r
  | .turn gen => ((processTurn gen st).1, false)
  | .submit envKey text => (handleUserSubmit envKey st text, false)
  | .stop => (handleStop st, false)

/-- How many times the summarization routine is invoked along a list of
non-reset steps. -/
def countSummaryRuns (st : AppState) : List ObsStep → Nat
  | [] => 0
  | step :: rest =>
      let p := obsApply st step
      (if p.2 then 1 else 0) + countSummaryRuns p.1 rest

/-- States of one conversation run reachable through the component's
handlers and effects from the initial component state.  The configuration
fields the handlers never write (`agents`, `maxTurns`, `topic`,
`globalRules`) are frozen along a run, matching the spec's
configuration-snapshot rule (§3); roster edits through the presentation
layer are out of scope. -/
inductive Reach : AppState → Prop where
  | init (cfg : AppConfig) (svc : ServiceState) : Reach (mkInitial cfg svc)
  | start (envKey : String) {st : AppState} :
      Reach st → Reach (handleStart envKey st)
  | stop {st : AppState} : Reach st → Reach (handleStop st)
  | reset {st : AppState} : Reach st → Reach (handleReset st)
  | submit (envKey text : String) {st : AppState} :
      Reach st → Reach (handleUserSubmit envKey st text)
  | turn (gen : String → String → Except String String) {st : AppState} :
      Reach st → Reach (processTurn gen st).1
  | summary (r : Except String String) {st : AppState} :
      Reach st → Reach (summaryEffect st r).1

/-- The turn-count invariant: the turn count never exceeds the budget. -/
def Inv (st : AppState) : Prop :=
  st.turnCount ≤ turnBudget st.config

/-- Claim-side reading of "the most recent non-SYSTEM message": the last
element of the transcript filtered to non-SYSTEM senders. -/
def lastNonSystemSpec (messages : List Message) : Option Message :=
  (messages.filter fun m => m.senderId ≠ "SYSTEM").getLast?

/-- Claim-side speaker-label formatting of a transcript message used as the
next prompt: the User label for a `USER` sender, else the sending agent's
display name, `Other` when the sender is not in the roster. -/
def promptOfMessage (cfg : AppConfig) (m : Message) : String :=
  if m.senderId = "USER" then "ユーザーの発言: " ++ m.text
  else
    (match cfg.agents.find? (fun a => a.id = m.senderId) with
      | some a => a.name
      | none => "Other") ++ "の発言: " ++ m.text

/-- Modelled from the spec (§4.5): the local fallback summary as the spec
words it — a topic line, then up to the last six non-SYSTEM messages, each
line truncated to the 120-character budget with an ellipsis exactly when the
original text exceeds the budget.  Written independently of
`buildLocalSummary` (last-six via reverse/take, explicit emptiness case) to
be compared with it. -/
def localSummarySpec (messages : List Message) (topic : String) : String :=
  let nonSystem := messages.filter fun m => m.senderId ≠ "SYSTEM"
  let lastSix := (nonSystem.reverse.take 6).reverse
  let line : Message → String := fun m =>
    "• " ++ (if m.senderId = "USER" then "User" else m.senderId) ++ ": " ++
      strTake (collapseWhitespace m.text) 120 ++
      (if 120 < m.text.length then "…" else "")
  let topicLine := "トピック: " ++ (if topic = "" then "未設定" else topic)
  if lastSix.isEmpty then topicLine ++ "\n" ++ "直近の発言がありません。"
  else topicLine ++ "\n" ++ "直近の発言ハイライト:\n" ++
    String.intercalate "\n" (lastSix.map line)

/-! ### Concrete fixtures used by witnesses and counterexamples -/

/-- A first test agent. -/
def agentA : AgentConfig :=
  { id := "A", name := "Alice", systemPrompt := "pa", color := .cyan, avatarEmoji := "" }

/-- A second test agent. -/
def agentB : AgentConfig :=
  { id := "B", name := "Bob", systemPrompt := "pb", color := .pink, avatarEmoji := "" }

/-- A two-agent test configuration with a Gemini-shaped key. -/
def cfgAB : AppConfig :=
  { apiKey := "AIzaTest", provider := .gemini, model := "gemini-2.5-flash",
    agents := [agentA, agentB], topic := "Topic", maxTurns := 2, globalRules := "Rules" }

/-- A completed conversation state with a non-empty transcript and the
summary latch still clear. -/
def stCompleted : AppState :=
  { config := cfgAB,
    messages := [{ id := "m1", senderId := "A", text := "hello", timestamp := 0 }],
    status := .COMPLETED, turnCount := 4, currentSpeakerId := none,
    hasSummarized := false, isSummarizing := false,
    svc := ServiceState.initial, freshCounter := 1 }

/-- The initial component state over the two-agent test configuration. -/
def stInit : AppState := mkInitial cfgAB ServiceState.initial

/-- A one-agent test configuration with a single-turn budget. -/
def cfgA : AppConfig :=
  { apiKey := "AIzaTest", provider := .gemini, model := "gemini-2.5-flash",
    agents := [agentA], topic := "Topic", maxTurns := 1, globalRules := "R" }

/-- A reachable active state whose turn count has reached the budget:
start over the one-agent single-turn configuration, then one successful
turn. -/
def stBudget : AppState :=
  (processTurn (fun _ _ => Except.ok "hi")
    (handleStart "" (mkInitial cfgA ServiceState.initial))).1

/-- A freshly started active state: zero turns taken, the first agent of
the two-agent roster set to speak. -/
def stActiveA : AppState :=
  { config := cfgAB, messages := [], status := .ACTIVE, turnCount := 0,
    currentSpeakerId := some "A", hasSummarized := false, isSummarizing := false,
    svc := ServiceState.initial, freshCounter := 0 }

/-- An active state whose transcript holds only a SYSTEM message while the
current speaker is the second agent of the roster. -/
def stActiveB : AppState :=
  { config := cfgAB,
    messages := [{ id := "s0", senderId := "SYSTEM", text := "note", timestamp := 0 }],
    status := .ACTIVE, turnCount := 0, currentSpeakerId := some "B",
    hasSummarized := false, isSummarizing := false,
    svc := ServiceState.initial, freshCounter := 1 }

/-! ### General helper lemmas -/

/-- `jsTrim` in terms of `List.rdropWhile`. -/
theorem jsTrim_eq_rdropWhile (s : String) :
    jsTrim s = String.mk (List.rdropWhile Char.isWhitespace
      (s.data.dropWhile Char.isWhitespace)) := rfl

/-- A prefix of a list that drops no leading elements drops none either. -/
theorem dropWhile_eq_self_of_prefix {u v : List Char} (hpre : v <+: u)
    (hu : u.dropWhile Char.isWhitespace = u) :
    v.dropWhile Char.isWhitespace = v := by
  cases v with
  | nil => rfl
  | cons a v' =>
      obtain ⟨t, ht⟩ := hpre
      subst ht
      rw [List.cons_append, List.dropWhile_cons] at hu
      by_cases hws : a.isWhitespace
      · exfalso
        rw [if_pos hws] at hu
        have hlen := congrArg List.length hu
        have hle := (List.dropWhile_suffix (l := v' ++ t)
          Char.isWhitespace).sublist.length_le
        simp only [List.length_cons] at hlen
        omega
      · rw [List.dropWhile_cons, if_neg hws]

/-- Trimming an already-trimmed string changes nothing. -/
theorem jsTrim_idem (s : String) : jsTrim (jsTrim s) = jsTrim s := by
  rw [jsTrim_eq_rdropWhile, jsTrim_eq_rdropWhile]
  have hdata : (String.mk (List.rdropWhile Char.isWhitespace
      (s.data.dropWhile Char.isWhitespace))).data
      = List.rdropWhile Char.isWhitespace (s.data.dropWhile Char.isWhitespace) := rfl
  rw [hdata]
  have h1 : (List.rdropWhile Char.isWhitespace
      (s.data.dropWhile Char.isWhitespace)).dropWhile Char.isWhitespace
      = List.rdropWhile Char.isWhitespace (s.data.dropWhile Char.isWhitespace) :=
    dropWhile_eq_self_of_prefix
      (List.rdropWhile_prefix Char.isWhitespace (s.data.dropWhile Char.isWhitespace))
      (List.dropWhile_idempotent Char.isWhitespace s.data)
  rw [h1, List.rdropWhile_idempotent]

/-- A non-empty effective credential is still non-empty after the trim
`initializeChats` applies (the effective key is already trimmed). -/
theorem getEffectiveApiKey_trim (envKey : String) (cfg : AppConfig)
    (hk : getEffectiveApiKey envKey cfg ≠ "") :
    jsTrim (getEffectiveApiKey envKey cfg) ≠ "" := by
  unfold getEffectiveApiKey at hk ⊢
  by_cases h1 : jsTrim cfg.apiKey = ""
  · by_cases h2 : jsTrim envKey = ""
    · simp [h1, h2] at hk
    · simp [h1, h2, jsTrim_idem]
  · simp [h1, jsTrim_idem]

/-- `initializeChats` succeeds whenever the credential trims non-empty. -/
theorem initializeChats_fst_ok (st : ServiceState) (k m : String)
    (ag : List AgentConfig) (r : String) (h : jsTrim k ≠ "") :
    (initializeChats st k m ag r).1 = Except.ok () := by
  unfold initializeChats
  simp only [h, if_neg, reduceIte]
  split <;> rfl

/-! ### C4: credential validation in `initializeChats` -/

/-- C4: for every credential empty after trimming, `initializeChats` fails
with the configuration error and returns the module state exactly as it was
(no session created, provider/model/key untouched — the state is cleared
only after the credential is validated); for every credential non-empty
after trimming, the call does not fail. -/
theorem initializeChats_credential_check (st : ServiceState)
    (apiKey modelName : String) (agents : List AgentConfig) (rules : String) :
    (jsTrim apiKey = "" →
      initializeChats st apiKey modelName agents rules =
        (Except.error "API Key is required", st)) ∧
    (jsTrim apiKey ≠ "" →
      (initializeChats st apiKey modelName agents rules).1 = Except.ok ()) := by
  unfold initializeChats
  constructor
  · intro h
    simp [h]
  · intro h
    simp only [h, if_neg, reduceIte]
    split <;> rfl

/-- C4 witness: a whitespace-only credential is rejected with the prior
state intact, and a non-blank credential passes the credential check. -/
theorem initializeChats_credential_check_witness :
    (jsTrim " " = "" ∧
      initializeChats ServiceState.initial " " "" [agentA] "r" =
        (Except.error "API Key is required", ServiceState.initial)) ∧
    (jsTrim "AIzaTest" ≠ "" ∧
      (initializeChats ServiceState.initial "AIzaTest" "" [agentA] "r").1 =
        Except.ok ()) := by
  refine ⟨⟨by decide, ?_⟩, ⟨by decide, ?_⟩⟩
  · exact (initializeChats_credential_check ServiceState.initial " " "" [agentA] "r").1
      (by decide)
  · exact (initializeChats_credential_check ServiceState.initial "AIzaTest" "" [agentA] "r").2
      (by decide)

/-! ### C3: failure characterization of `generateResponse` -/

/-- C3: `generateResponse` fails exactly when no session exists for the
agent or the external call fails; the session-not-found failure carries the
session-not-found diagnostic; a missing or empty response text is not a
failure and yields the sentinel placeholder; and on every failure the
session state is exactly what it was before the call. -/
theorem generateResponse_failure_characterization (st : ServiceState)
    (agentId input : String) (gcall : GeminiCall) (hcall : HttpCall) :
    (isErr (generateResponse st agentId input gcall hcall).1 = true ↔
      (hasSessionFor st agentId = false ∨
        externalCallFails st.activeProvider gcall hcall = true)) ∧
    (isErr (generateResponse st agentId input gcall hcall).1 = true →
      (generateResponse st agentId input gcall hcall).2 = st) ∧
    (hasSessionFor st agentId = false →
      (generateResponse st agentId input gcall hcall).1 =
        Except.error ("Chat Session for agent " ++ agentId ++ " not initialized")) ∧
    (hasSessionFor st agentId = true →
      externalCallFails st.activeProvider gcall hcall = false →
      externalCallEmpty st.activeProvider gcall hcall = true →
      (generateResponse st agentId input gcall hcall).1 =
        Except.ok noResponseSentinel) := by
  by_cases hp : st.activeProvider = LLMProvider.gemini
  · cases hl : st.chatSessions.lookup agentId with
    | none =>
        cases gcall <;>
          simp [generateResponse, hasSessionFor, externalCallFails,
            externalCallEmpty, isErr, hp, hl]
    | some session =>
        cases gcall with
        | fail e =>
            simp [generateResponse, hasSessionFor, externalCallFails,
              externalCallEmpty, isErr, hp, hl]
        | ok text =>
            by_cases ht : text.getD "" = "" <;>
              simp [generateResponse, hasSessionFor, externalCallFails,
                externalCallEmpty, isErr, hp, hl, ht]
  · cases hl : st.openAISessions.lookup agentId with
    | none =>
        cases hcall <;>
          simp [generateResponse, hasSessionFor, externalCallFails,
            externalCallEmpty, isErr, hp, hl]
    | some messages =>
        cases hcall with
        | netFail e =>
            simp [generateResponse, hasSessionFor, externalCallFails,
              externalCallEmpty, isErr, hp, hl]
        | resp ok status bodyText parsed =>
            cases ok with
            | false =>
                cases parsed <;>
                  simp [generateResponse, hasSessionFor, externalCallFails,
                    externalCallEmpty, isErr, hp, hl]
            | true =>
                cases parsed with
                | error e =>
                    simp [generateResponse, hasSessionFor, externalCallFails,
                      externalCallEmpty, isErr, hp, hl]
                | ok content =>
                    by_cases ht : jsTrim (content.getD "") = "" <;>
                      simp [generateResponse, hasSessionFor, externalCallFails,
                        externalCallEmpty, isErr, hp, hl, ht]

/-- C3 witness: with a Gemini session present, an empty response text is not
a failure and degrades to the sentinel placeholder, while with no session
the call fails with the session-not-found diagnostic. -/
theorem generateResponse_failure_characterization_witness :
    (hasSessionFor
        { ServiceState.initial with
            chatSessions := [("A", { systemInstruction := "s", history := [] })] }
        "A" = true ∧
      (generateResponse
        { ServiceState.initial with
            chatSessions := [("A", { systemInstruction := "s", history := [] })] }
        "A" "hi" (GeminiCall.ok (some "")) (HttpCall.netFail "x")).1 =
        Except.ok noResponseSentinel) ∧
    (hasSessionFor ServiceState.initial "A" = false ∧
      (generateResponse ServiceState.initial "A" "hi"
          (GeminiCall.ok (some "t")) (HttpCall.netFail "x")).1 =
        Except.error ("Chat Session for agent " ++ "A" ++ " not initialized")) := by
  refine ⟨⟨by decide, ?_⟩, ⟨by decide, ?_⟩⟩
  · exact (generateResponse_failure_characterization
      { ServiceState.initial with
          chatSessions := [("A", { systemInstruction := "s", history := [] })] }
      "A" "hi" (GeminiCall.ok (some "")) (HttpCall.netFail "x")).2.2.2
      (by decide) (by decide) (by decide)
  · exact (generateResponse_failure_characterization ServiceState.initial
      "A" "hi" (GeminiCall.ok (some "t")) (HttpCall.netFail "x")).2.2.1
      (by decide)

/-! ### C9: the deterministic local fallback summary -/

/-- Dropping all but the last `n` elements is taking `n` from the reversed
list, reversed back. -/
theorem drop_sub_eq_reverse_take {α : Type} (l : List α) (n : Nat) :
    l.drop (l.length - n) = (l.reverse.take n).reverse := by
  rw [show l.drop (l.length - n) = l.rtake n from rfl,
    List.rtake_eq_reverse_take_reverse]

/-- C9: on a summary failure the effect appends exactly one message from the
SUMMARY sender, whose text is the failure reason followed by the local
fallback summary of the transcript snapshot; and the fallback is the total
pure computation the spec describes — topic line plus at most the last six
non-SYSTEM messages, each truncated to the 120-character budget with an
ellipsis exactly when the original text exceeds the budget
(`buildLocalSummary` agrees with the spec-side `localSummarySpec` on every
input, so it never fails). -/
theorem summary_fallback_spec (st : AppState) (e : String)
    (h1 : st.status = .COMPLETED) (h2 : st.hasSummarized = false)
    (h3 : st.messages.length ≠ 0) :
    ((summaryEffect st (Except.error e)).1.messages =
      st.messages ++
        [{ id := "id-" ++ toString st.freshCounter, senderId := "SYSTEM",
           text := "議事録をまとめています...", timestamp := st.freshCounter },
         { id := "id-" ++ toString (st.freshCounter + 1),
           senderId := SUMMARY_AGENT_ID,
           text := "要約生成に失敗しました: " ++
             (if e = "" then "理由不明のエラー" else e) ++
             "\n\nローカル要約:\n" ++ buildLocalSummary st.messages st.config.topic,
           timestamp := st.freshCounter + 1 }]) ∧
    ∀ (msgs : List Message) (topic : String),
      buildLocalSummary msgs topic = localSummarySpec msgs topic := by
  constructor
  · unfold summaryEffect addMessage
    simp [h1, h2, h3]
  · intro msgs topic
    unfold buildLocalSummary localSummarySpec
    dsimp only
    rw [← drop_sub_eq_reverse_take]
    rcases h : (msgs.filter fun m => m.senderId ≠ "SYSTEM").drop
        ((msgs.filter fun m => m.senderId ≠ "SYSTEM").length - 6) with _ | ⟨a, rest⟩
    · simp [h]
    · have hs : ∀ X : String,
          "\n" ++ ("直近の発言ハイライト:\n" ++ X) = "\n直近の発言ハイライト:\n" ++ X := by
        intro X
        rw [← String.append_assoc]
        rfl
      simp [h, String.append_assoc, hs]

/-- C9 witness: the fallback append evaluated at a concrete completed state
and failure reason. -/
theorem summary_fallback_spec_witness :
    (stCompleted.status = .COMPLETED ∧ stCompleted.hasSummarized = false ∧
      stCompleted.messages.length ≠ 0) ∧
    ((summaryEffect stCompleted (Except.error "boom")).1.messages =
      stCompleted.messages ++
        [{ id := "id-" ++ toString stCompleted.freshCounter, senderId := "SYSTEM",
           text := "議事録をまとめています...", timestamp := stCompleted.freshCounter },
         { id := "id-" ++ toString (stCompleted.freshCounter + 1),
           senderId := SUMMARY_AGENT_ID,
           text := "要約生成に失敗しました: " ++
             (if "boom" = "" then "理由不明のエラー" else "boom") ++
             "\n\nローカル要約:\n" ++
             buildLocalSummary stCompleted.messages stCompleted.config.topic,
           timestamp := stCompleted.freshCounter + 1 }]) ∧
    (∀ (msgs : List Message) (topic : String),
      buildLocalSummary msgs topic = localSummarySpec msgs topic) := by
  refine ⟨⟨rfl, rfl, by decide⟩, ?_⟩
  exact summary_fallback_spec stCompleted "boom" rfl rfl (by decide)

/-! ### C7: valid starts -/

/-- C7: for every valid start (non-blank topic, non-empty effective
credential, a configured roster; session initialization then succeeds), the
transcript becomes exactly the SYSTEM announcement containing the topic,
the turn count is reset to zero, the current speaker is the first configured
agent, and the status is `ACTIVE`. -/
theorem handleStart_valid (envKey : String) (st : AppState)
    (ht : jsTrim st.config.topic ≠ "")
    (hk : getEffectiveApiKey envKey st.config ≠ "")
    (ha : st.config.agents.length > 0) :
    (handleStart envKey st).messages =
      [{ id := "id-" ++ toString st.freshCounter, senderId := "SYSTEM",
         text := "Discussion Started: \"" ++ st.config.topic ++ "\"",
         timestamp := st.freshCounter }] ∧
    (handleStart envKey st).turnCount = 0 ∧
    (handleStart envKey st).currentSpeakerId =
      some ((st.config.agents.headD defaultAgent).id) ∧
    (handleStart envKey st).status = .ACTIVE := by
  have htrim : jsTrim (getEffectiveApiKey envKey st.config) ≠ "" :=
    getEffectiveApiKey_trim envKey st.config hk
  unfold handleStart
  rw [if_neg ht, if_neg hk]
  unfold initializeChats
  dsimp only
  rw [if_neg htrim]
  split
  case h_1 heq =>
    exfalso
    split at heq <;> exact absurd heq (by simp)
  case h_2 heq =>
    simp [addMessage, ha]

/-- C7 witness: a concrete valid start evaluated on the two-agent fixture. -/
theorem handleStart_valid_witness :
    (jsTrim stInit.config.topic ≠ "" ∧
      getEffectiveApiKey "" stInit.config ≠ "" ∧
      stInit.config.agents.length > 0) ∧
    ((handleStart "" stInit).messages =
      [{ id := "id-" ++ toString stInit.freshCounter, senderId := "SYSTEM",
         text := "Discussion Started: \"" ++ stInit.config.topic ++ "\"",
         timestamp := stInit.freshCounter }] ∧
     (handleStart "" stInit).turnCount = 0 ∧
     (handleStart "" stInit).currentSpeakerId =
       some ((stInit.config.agents.headD defaultAgent).id) ∧
     (handleStart "" stInit).status = .ACTIVE) :=
  ⟨⟨by decide, by decide, by decide⟩,
   handleStart_valid "" stInit (by decide) (by decide) (by decide)⟩

/-! ### C1: prompt derivation and the empty-transcript skip guard -/

/-- The code's reverse-search for the last non-SYSTEM message agrees with
the claim-side reading (last element of the non-SYSTEM filter). -/
theorem lastContentMessage_eq_spec (messages : List Message) :
    lastContentMessage messages = lastNonSystemSpec messages := by
  unfold lastContentMessage lastNonSystemSpec
  rw [List.getLast?_eq_head?_reverse, ← List.filter_reverse, List.filter_head?]

/-- C1 counterexample: in an `ACTIVE` state whose transcript holds one
SYSTEM message and nothing else, with the current speaker being the second
agent, the turn execution is not skipped — a generation call is made with
the raw topic — although the transcript contains no non-SYSTEM message and
the speaker is not the first agent in roster order. -/
theorem processTurn_empty_guard_counterexample :
    lastNonSystemSpec stActiveB.messages = none ∧
    stActiveB.status = .ACTIVE ∧
    stActiveB.currentSpeakerId = some "B" ∧
    "B" ≠ (stActiveB.config.agents.headD defaultAgent).id ∧
    stActiveB.turnCount < turnBudget stActiveB.config ∧
    (processTurn (fun _ _ => Except.ok "reply") stActiveB).2 =
      some ("B", stActiveB.config.topic) := by
  refine ⟨by decide, rfl, rfl, by decide, by decide, by decide⟩

/-- C1 (amended): in an `ACTIVE` turn execution with a speaker set and the
budget not reached, the generation call uses the most recent non-SYSTEM
message formatted with its speaker label when one exists; otherwise it uses
the raw topic, except that the execution is skipped (no call, no state
change) exactly when the transcript is completely empty and the current
speaker is not the first agent in roster order — a transcript that is
non-empty but all-SYSTEM also prompts with the raw topic, for any speaker. -/
theorem processTurn_prompt_amended
    (gen : String → String → Except String String) (st : AppState)
    (speakerId : String)
    (hs : st.status = .ACTIVE) (hc : st.currentSpeakerId = some speakerId)
    (hb : st.turnCount < turnBudget st.config) :
    (processTurn gen st).2 =
      (match lastNonSystemSpec st.messages with
       | some m => some (speakerId, promptOfMessage st.config m)
       | none =>
           if st.messages.length = 0 ∧
               speakerId ≠ (st.config.agents.headD defaultAgent).id then none
           else some (speakerId, st.config.topic)) ∧
    ((processTurn gen st).2 = none → (processTurn gen st).1 = st) := by
  unfold processTurn turnPrompt
  rw [if_neg (by simp [hs]), hc]
  dsimp only
  rw [if_neg (Nat.not_le.mpr hb), ← lastContentMessage_eq_spec]
  by_cases hm : st.messages.length > 0
  · rw [if_pos hm]
    cases hl : lastContentMessage st.messages with
    | some m =>
        dsimp only
        split <;> simp [promptOfMessage]
    | none =>
        have hne : st.messages ≠ [] := by
          intro h
          rw [h] at hm
          simp at hm
        dsimp only
        split <;> simp [hne]
  · rw [if_neg hm]
    have hnil : st.messages = [] := List.length_eq_zero.mp (by omega)
    rw [hnil, show lastContentMessage [] = none from rfl]
    have hHead : st.config.agents.headD defaultAgent =
        st.config.agents.head?.getD defaultAgent := by
      cases st.config.agents <;> rfl
    by_cases hsp : speakerId = (st.config.agents.headD defaultAgent).id
    · rw [if_neg (not_not_intro hsp)]
      have hsp' : speakerId = (st.config.agents.head?.getD defaultAgent).id := by
        rw [hsp, hHead]
      dsimp only
      split <;> simp [hsp']
    · rw [if_pos hsp]
      have hsp' : ¬ speakerId = (st.config.agents.head?.getD defaultAgent).id := by
        rw [← hHead]
        exact hsp
      simp [hsp']

/-- C1 witness (for the amended statement): at the concrete SYSTEM-only
transcript with the second agent speaking, the characterization evaluates to
a generation call with the raw topic. -/
theorem processTurn_prompt_amended_witness :
    (stActiveB.status = .ACTIVE ∧ stActiveB.currentSpeakerId = some "B" ∧
      stActiveB.turnCount < turnBudget stActiveB.config) ∧
    ((processTurn (fun _ _ => Except.ok "re") stActiveB).2 =
      (match lastNonSystemSpec stActiveB.messages with
       | some m => some ("B", promptOfMessage stActiveB.config m)
       | none =>
           if stActiveB.messages.length = 0 ∧
               "B" ≠ (stActiveB.config.agents.headD defaultAgent).id then none
           else some ("B", stActiveB.config.topic)) ∧
     ((processTurn (fun _ _ => Except.ok "re") stActiveB).2 = none →
       (processTurn (fun _ _ => Except.ok "re") stActiveB).1 = stActiveB)) :=
  ⟨⟨rfl, rfl, by decide⟩,
   processTurn_prompt_amended (fun _ _ => Except.ok "re") stActiveB "B"
     rfl rfl (by decide)⟩

/-! ### C6: effects of a generation failure -/

/-- C6: when the turn execution makes a generation call and the call fails,
exactly one new SYSTEM message describing the error is appended, the status
becomes `ERROR`, and the turn count and current speaker keep their prior
values (no agent-attributed message is appended). -/
theorem processTurn_failure
    (gen : String → String → Except String String) (st : AppState)
    (speakerId promptText e : String)
    (hcall : (processTurn gen st).2 = some (speakerId, promptText))
    (hfail : gen speakerId promptText = Except.error e) :
    (processTurn gen st).1.messages =
      st.messages ++
        [{ id := "id-" ++ toString st.freshCounter, senderId := "SYSTEM",
           text := "LLM APIエラー: " ++
             (if e = "" then "詳細不明です。APIキーとモデルを確認してください。" else e),
           timestamp := st.freshCounter }] ∧
    (processTurn gen st).1.status = .ERROR ∧
    (processTurn gen st).1.turnCount = st.turnCount ∧
    (processTurn gen st).1.currentSpeakerId = st.currentSpeakerId := by
  unfold processTurn at hcall ⊢
  by_cases h1 : st.status ≠ ChatStatus.ACTIVE
  · rw [if_pos h1] at hcall
    exact absurd hcall (by simp)
  · rw [if_neg h1] at hcall ⊢
    cases hsp : st.currentSpeakerId with
    | none =>
        rw [hsp] at hcall
        exact absurd hcall (by simp)
    | some spk =>
        rw [hsp] at hcall
        dsimp only at hcall ⊢
        by_cases h2 : st.turnCount ≥ turnBudget st.config
        · rw [if_pos h2] at hcall
          exact absurd hcall (by simp)
        · rw [if_neg h2] at hcall ⊢
          cases hp : turnPrompt st.config st.messages spk with
          | none =>
              rw [hp] at hcall
              exact absurd hcall (by simp)
          | some p =>
              rw [hp] at hcall
              dsimp only at hcall ⊢
              cases hg : gen spk p with
              | ok r =>
                  rw [hg] at hcall
                  dsimp only at hcall
                  simp only [Option.some.injEq, Prod.mk.injEq] at hcall
                  obtain ⟨h3, h4⟩ := hcall
                  subst h3
                  subst h4
                  rw [hfail] at hg
                  exact absurd hg (by simp)
              | error err =>
                  rw [hg] at hcall
                  dsimp only at hcall ⊢
                  simp only [Option.some.injEq, Prod.mk.injEq] at hcall
                  obtain ⟨h3, h4⟩ := hcall
                  subst h3
                  subst h4
                  rw [hfail] at hg
                  have he : e = err := by
                    injection hg
                  subst he
                  simp [addMessage, hsp]

/-- C6 witness: a failing generation call on a concrete active state. -/
theorem processTurn_failure_witness :
    ((processTurn (fun _ _ => Except.error "boom") stActiveB).2 =
      some ("B", stActiveB.config.topic) ∧
      (fun (_ _ : String) => (Except.error "boom" : Except String String)) "B"
        stActiveB.config.topic = Except.error "boom") ∧
    ((processTurn (fun _ _ => Except.error "boom") stActiveB).1.messages =
      stActiveB.messages ++
        [{ id := "id-" ++ toString stActiveB.freshCounter, senderId := "SYSTEM",
           text := "LLM APIエラー: " ++
             (if "boom" = "" then "詳細不明です。APIキーとモデルを確認してください。" else "boom"),
           timestamp := stActiveB.freshCounter }] ∧
     (processTurn (fun _ _ => Except.error "boom") stActiveB).1.status = .ERROR ∧
     (processTurn (fun _ _ => Except.error "boom") stActiveB).1.turnCount =
       stActiveB.turnCount ∧
     (processTurn (fun _ _ => Except.error "boom") stActiveB).1.currentSpeakerId =
       stActiveB.currentSpeakerId) :=
  ⟨⟨by decide, rfl⟩,
   processTurn_failure (fun _ _ => Except.error "boom") stActiveB "B"
     stActiveB.config.topic "boom" (by decide) rfl⟩

/-! ### C10: user submissions -/

/-- C10 counterexample: a whitespace-only input text is dropped by the
blank-input guard — no USER message is appended — so the append is not
unconditional over every input text. -/
theorem handleUserSubmit_blank_counterexample :
    stInit.messages = [] ∧ handleUserSubmit "AIzaTest" stInit " " = stInit :=
  ⟨rfl, rfl⟩

/-- C10 (amended): for every input text that is non-blank after trimming,
`handleUserSubmit` appends a USER message containing that text right after
the existing transcript — in every status, and regardless of how the
subsequent implicit initialization or reactivation goes. -/
theorem handleUserSubmit_appends_user (envKey : String) (st : AppState)
    (text : String) (hne : jsTrim text ≠ "") :
    ∃ rest, (handleUserSubmit envKey st text).messages =
      st.messages ++
        { id := "id-" ++ toString st.freshCounter, senderId := "USER",
          text := text, timestamp := st.freshCounter } :: rest := by
  unfold handleUserSubmit
  rw [if_neg hne]
  dsimp only
  split
  · split
    · exact ⟨[Message.mk ("id-" ++ toString (st.freshCounter + 1)) "SYSTEM"
          "Please enter an API Key to start." (st.freshCounter + 1)],
        by simp [addMessage]⟩
    · next hkey =>
        split
        · split
          · exact ⟨[], by simp [addMessage]⟩
          · exact ⟨[], by simp [addMessage]⟩
        · next e svc' heq =>
            exfalso
            have htrim := getEffectiveApiKey_trim _ _ hkey
            have h5 := congrArg Prod.fst heq
            rw [initializeChats_fst_ok _ _ _ _ _ htrim] at h5
            exact absurd h5 (by simp)
  · split
    · split
      · exact ⟨[], by simp [addMessage]⟩
      · exact ⟨[], by simp [addMessage]⟩
    · exact ⟨[], by simp [addMessage]⟩

/-- C10 witness: a concrete non-blank submission from the idle fixture
appends the USER message at the front of the new transcript suffix. -/
theorem handleUserSubmit_appends_user_witness :
    jsTrim "hello" ≠ "" ∧
    ∃ rest, (handleUserSubmit "" stInit "hello").messages =
      stInit.messages ++
        { id := "id-" ++ toString stInit.freshCounter, senderId := "USER",
          text := "hello", timestamp := stInit.freshCounter } :: rest :=
  ⟨by decide, handleUserSubmit_appends_user "" stInit "hello" (by decide)⟩

/-! ### C5: round-robin speaker rotation -/

/-- With duplicate-free agent ids, searching the roster for the id of the
`i`-th agent finds exactly index `i`. -/
theorem findIdx_getD_of_nodup (agents : List AgentConfig) (i : Nat)
    (hi : i < agents.length) (hnd : (agents.map AgentConfig.id).Nodup) :
    agents.findIdx? (fun a => a.id = (agents.getD i defaultAgent).id) = some i := by
  induction agents generalizing i with
  | nil => simp at hi
  | cons a rest ih =>
      cases i with
      | zero => simp [List.findIdx?_cons]
      | succ j =>
          have hj : j < rest.length := by simpa using hi
          have hnd' : (rest.map AgentConfig.id).Nodup := (List.nodup_cons.mp hnd).2
          have hmem : (rest.getD j defaultAgent).id ∈ rest.map AgentConfig.id := by
            rw [List.getD_eq_getElem rest defaultAgent hj]
            exact List.mem_map_of_mem _ (List.getElem_mem hj)
          have hne : ¬ (a.id = (rest.getD j defaultAgent).id) := by
            intro he
            exact (List.nodup_cons.mp hnd).1 (he ▸ hmem)
          have hgd : (a :: rest).getD (j + 1) defaultAgent = rest.getD j defaultAgent := rfl
          rw [hgd, List.findIdx?_cons, if_neg (by simpa using hne),
            List.findIdx?_succ, ih j hj hnd']
          rfl

/-- The JavaScript advance `((currentIndex + 1) % length)` over `Int`,
evaluated at a found index. -/
theorem advance_toNat (i len : Nat) :
    (((i : Int) + 1) % (len : Int)).toNat = (i + 1) % len := by
  have h1 : ((i : Int) + 1) = ((i + 1 : Nat) : Int) := by push_cast; ring
  rw [h1, ← Int.natCast_mod, Int.toNat_natCast]

/-- Taking `mod` before a successor does not change the residue. -/
theorem mod_succ_mod (tc len : Nat) : ((tc % len) + 1) % len = (tc + 1) % len := by
  conv_rhs => rw [Nat.add_mod]
  simp [Nat.mod_mod_of_dvd]

/-- Index 0 and `headD` agree. -/
theorem getD_zero_eq_headD (agents : List AgentConfig) :
    agents.getD 0 defaultAgent = agents.headD defaultAgent := by
  cases agents <;> rfl

/-- One successful automatic turn from a speaker sitting at roster index `i`
increments the turn count and advances the speaker to index
`(i + 1) % agentCount`, leaving status, configuration, and the rest intact. -/
theorem processTurn_ok_advance (st : AppState) (r : String) (i : Nat)
    (hs : st.status = .ACTIVE)
    (hi : i < st.config.agents.length)
    (hc : st.currentSpeakerId = some ((st.config.agents.getD i defaultAgent).id))
    (hnd : (st.config.agents.map AgentConfig.id).Nodup)
    (hb : st.turnCount < turnBudget st.config)
    (hm : st.messages.length > 0 ∨ i = 0) :
    (processTurn (fun _ _ => Except.ok r) st).1.turnCount = st.turnCount + 1 ∧
    (processTurn (fun _ _ => Except.ok r) st).1.currentSpeakerId =
      some ((st.config.agents.getD ((i + 1) % st.config.agents.length)
        defaultAgent).id) ∧
    (processTurn (fun _ _ => Except.ok r) st).1.status = .ACTIVE ∧
    (processTurn (fun _ _ => Except.ok r) st).1.config = st.config ∧
    (processTurn (fun _ _ => Except.ok r) st).1.messages.length > 0 := by
  unfold processTurn
  rw [if_neg (by simp [hs]), hc]
  dsimp only
  rw [if_neg (Nat.not_le.mpr hb)]
  have hprompt : ∃ p, turnPrompt st.config st.messages
      ((st.config.agents.getD i defaultAgent).id) = some p := by
    unfold turnPrompt
    by_cases hm0 : st.messages.length > 0
    · rw [if_pos hm0]
      exact ⟨_, rfl⟩
    · rw [if_neg hm0]
      have hi0 : i = 0 := by
        rcases hm with h | h
        · exact absurd h hm0
        · exact h
      rw [hi0, getD_zero_eq_headD]
      rw [if_neg (by simp)]
      exact ⟨_, rfl⟩
  obtain ⟨p, hp⟩ := hprompt
  rw [hp]
  dsimp only
  simp only [addMessage]
  rw [findIdx_getD_of_nodup st.config.agents i hi hnd]
  simp [advance_toNat, hs]

/-- Running `N` successful turns adds `N` to the turn count and leaves the
speaker at roster index `turnCount mod agentCount`, preserving status and
configuration. -/
theorem runTurns_characterization (resp : Nat → String) (N : Nat) :
    ∀ (st : AppState),
      st.status = .ACTIVE →
      st.currentSpeakerId = some ((st.config.agents.getD
        (st.turnCount % st.config.agents.length) defaultAgent).id) →
      (st.config.agents.map AgentConfig.id).Nodup →
      1 ≤ st.config.agents.length →
      (st.messages.length > 0 ∨ st.turnCount % st.config.agents.length = 0) →
      st.turnCount + N ≤ turnBudget st.config →
      (runTurns resp N st).turnCount = st.turnCount + N ∧
      (runTurns resp N st).currentSpeakerId =
        some ((st.config.agents.getD
          ((st.turnCount + N) % st.config.agents.length) defaultAgent).id) ∧
      (runTurns resp N st).status = .ACTIVE ∧
      (runTurns resp N st).config = st.config := by
  induction N with
  | zero =>
      intro st h1 h2 h3 h4 h5 h6
      exact ⟨rfl, by simpa using h2, h1, rfl⟩
  | succ n ih =>
      intro st h1 h2 h3 h4 h5 h6
      have hb : st.turnCount < turnBudget st.config := by omega
      have hmod : st.turnCount % st.config.agents.length <
          st.config.agents.length := Nat.mod_lt _ (by omega)
      have hstep := processTurn_ok_advance st (resp st.turnCount)
        (st.turnCount % st.config.agents.length) h1 hmod h2 h3 hb h5
      obtain ⟨e1, e2, e3, e4, e5⟩ := hstep
      have hrun : runTurns resp (n + 1) st =
          runTurns resp n
            (processTurn (fun _ _ => Except.ok (resp st.turnCount)) st).1 := rfl
      rw [hrun]
      have ihst := ih (processTurn (fun _ _ => Except.ok (resp st.turnCount)) st).1
        e3 (by rw [e2, e1, e4, mod_succ_mod]) (by rw [e4]; exact h3)
        (by rw [e4]; exact h4) (Or.inl e5) (by rw [e1, e4]; omega)
      obtain ⟨f1, f2, f3, f4⟩ := ihst
      refine ⟨by rw [f1, e1]; omega, ?_, f3, by rw [f4, e4]⟩
      rw [f2, e1, e4]
      have harith : st.turnCount + 1 + n = st.turnCount + (n + 1) := by omega
      rw [harith]

/-- A successful turn whose speaker id is absent from the roster advances
the speaker to index 0 (the first agent) without failing. -/
theorem processTurn_missing_speaker (st : AppState) (r spk : String)
    (hs : st.status = .ACTIVE)
    (hc : st.currentSpeakerId = some spk)
    (hmem : spk ∉ st.config.agents.map AgentConfig.id)
    (hb : st.turnCount < turnBudget st.config)
    (hm : st.messages.length > 0) :
    (processTurn (fun _ _ => Except.ok r) st).1.currentSpeakerId =
      some ((st.config.agents.getD 0 defaultAgent).id) := by
  unfold processTurn
  rw [if_neg (by simp [hs]), hc]
  dsimp only
  rw [if_neg (Nat.not_le.mpr hb)]
  have hprompt : ∃ p, turnPrompt st.config st.messages spk = some p := by
    unfold turnPrompt
    rw [if_pos hm]
    exact ⟨_, rfl⟩
  obtain ⟨p, hp⟩ := hprompt
  rw [hp]
  dsimp only
  simp only [addMessage]
  have hfind : st.config.agents.findIdx? (fun a => a.id = spk) = none := by
    rw [List.findIdx?_eq_none_iff]
    intro x hx
    simp only [decide_eq_false_iff_not]
    intro he
    exact hmem (he ▸ List.mem_map_of_mem _ hx)
  rw [hfind]
  norm_num

/-- C5: speaker rotation is strict round robin: a successful turn from
roster index `i` advances the speaker to index `(i + 1) mod agentCount`;
hence after `N` successful turns from a valid start the turn count is `N`
and the speaker sits at index `N mod agentCount` (roster of at least two
agents with unique ids); and when the current speaker id is absent from the
roster, the advance selects index 0 — the first agent — without failing. -/
theorem round_robin_rotation (st : AppState) (resp : Nat → String) (N : Nat)
    (hs : st.status = .ACTIVE) (h0 : st.turnCount = 0)
    (hc : st.currentSpeakerId = some ((st.config.agents.headD defaultAgent).id))
    (hlen : 2 ≤ st.config.agents.length)
    (hnd : (st.config.agents.map AgentConfig.id).Nodup)
    (hN : N ≤ turnBudget st.config) :
    ((runTurns resp N st).turnCount = N ∧
     (runTurns resp N st).currentSpeakerId =
       some ((st.config.agents.getD (N % st.config.agents.length)
         defaultAgent).id)) ∧
    (∀ (st2 : AppState) (r : String) (i : Nat),
      st2.status = .ACTIVE → i < st2.config.agents.length →
      st2.currentSpeakerId = some ((st2.config.agents.getD i defaultAgent).id) →
      (st2.config.agents.map AgentConfig.id).Nodup →
      st2.turnCount < turnBudget st2.config →
      st2.messages.length > 0 →
      (processTurn (fun _ _ => Except.ok r) st2).1.currentSpeakerId =
        some ((st2.config.agents.getD ((i + 1) % st2.config.agents.length)
          defaultAgent).id)) ∧
    (∀ (st3 : AppState) (r spk : String),
      st3.status = .ACTIVE →
      st3.currentSpeakerId = some spk →
      spk ∉ st3.config.agents.map AgentConfig.id →
      st3.turnCount < turnBudget st3.config →
      st3.messages.length > 0 →
      (processTurn (fun _ _ => Except.ok r) st3).1.currentSpeakerId =
        some ((st3.config.agents.getD 0 defaultAgent).id)) := by
  refine ⟨?_, ?_, ?_⟩
  · have h := runTurns_characterization resp N st hs
      (by rw [h0, Nat.zero_mod, getD_zero_eq_headD]; exact hc) hnd (by omega)
      (Or.inr (by rw [h0, Nat.zero_mod])) (by omega)
    rw [h0] at h
    exact ⟨by simpa using h.1, by simpa using h.2.1⟩
  · intro st2 r i g1 g2 g3 g4 g5 g6
    exact (processTurn_ok_advance st2 r i g1 g2 g3 g4 g5 (Or.inl g6)).2.1
  · intro st3 r spk g1 g2 g3 g4 g5
    exact processTurn_missing_speaker st3 r spk g1 g2 g3 g4 g5

/-- C5 witness: three successful turns over the two-agent fixture leave the
turn count at 3 and the speaker at roster index 1. -/
theorem round_robin_rotation_witness :
    (stActiveA.status = .ACTIVE ∧ stActiveA.turnCount = 0 ∧
      stActiveA.currentSpeakerId =
        some ((stActiveA.config.agents.headD defaultAgent).id) ∧
      2 ≤ stActiveA.config.agents.length ∧
      (stActiveA.config.agents.map AgentConfig.id).Nodup ∧
      3 ≤ turnBudget stActiveA.config) ∧
    ((runTurns (fun _ => "r") 3 stActiveA).turnCount = 3 ∧
     (runTurns (fun _ => "r") 3 stActiveA).currentSpeakerId =
       some ((stActiveA.config.agents.getD (3 % stActiveA.config.agents.length)
         defaultAgent).id)) :=
  ⟨⟨rfl, rfl, by decide, by decide, by decide, by decide⟩,
   (round_robin_rotation stActiveA (fun _ => "r") 3 rfl rfl (by decide)
     (by decide) (by decide) (by decide)).1⟩

/-! ### C8: the one-shot summary latch -/

/-- The automatic turn step never touches the summary latch. -/
theorem processTurn_hasSummarized (gen : String → String → Except String String)
    (st : AppState) :
    (processTurn gen st).1.hasSummarized = st.hasSummarized := by
  unfold processTurn
  split
  · rfl
  · split
    · rfl
    · split
      · simp [addMessage]
      · split
        · rfl
        · split <;> simp [addMessage]

/-- A user submission never touches the summary latch. -/
theorem handleUserSubmit_hasSummarized (envKey : String) (st : AppState)
    (text : String) :
    (handleUserSubmit envKey st text).hasSummarized = st.hasSummarized := by
  unfold handleUserSubmit
  split
  · rfl
  · dsimp only
    split
    · split
      · simp [addMessage]
      · split
        · split <;> simp [addMessage]
        · simp [addMessage]
    · split
      · split <;> simp [addMessage]
      · simp [addMessage]

/-- After any non-reset step, the latch is the old latch or-ed with whether
the summarization routine fired on that step. -/
theorem obs_latch_fire (st : AppState) (step : ObsStep) :
    (obsApply st step).1.hasSummarized =
      (st.hasSummarized || (obsApply st step).2) := by
  cases step with
  | summary r =>
      show (summaryEffect st r).1.hasSummarized =
        (st.hasSummarized || (summaryEffect st r).2)
      unfold summaryEffect
      split
      · simp
      · split
        · simp
        · split
          · simp
          · split <;> simp [addMessage]
  | turn gen => simp [obsApply, processTurn_hasSummarized]
  | submit envKey text => simp [obsApply, handleUserSubmit_hasSummarized]
  | stop => simp [obsApply, handleStop, addMessage]

/-- Once the latch is set, no non-reset step fires the summarization. -/
theorem obs_no_fire_of_latched (st : AppState) (step : ObsStep)
    (h : st.hasSummarized = true) : (obsApply st step).2 = false := by
  cases step with
  | summary r =>
      show (summaryEffect st r).2 = false
      unfold summaryEffect
      split
      · rfl
      · rfl
  | turn gen => rfl
  | submit envKey text => rfl
  | stop => rfl

/-- With the latch set, no sequence of non-reset steps ever runs the
summarization. -/
theorem countSummaryRuns_latched :
    ∀ (steps : List ObsStep) (st : AppState), st.hasSummarized = true →
      countSummaryRuns st steps = 0 := by
  intro steps
  induction steps with
  | nil => intro st _; rfl
  | cons step rest ih =>
      intro st h
      unfold countSummaryRuns
      dsimp only
      rw [obs_no_fire_of_latched st step h]
      have hl : (obsApply st step).1.hasSummarized = true := by
        rw [obs_latch_fire, h]
        simp
      simpa using ih (obsApply st step).1 hl

/-- Along any sequence of non-reset steps, the summarization runs at most
once. -/
theorem countSummaryRuns_le_one :
    ∀ (steps : List ObsStep) (st : AppState), countSummaryRuns st steps ≤ 1 := by
  intro steps
  induction steps with
  | nil => intro st; simp [countSummaryRuns]
  | cons step rest ih =>
      intro st
      unfold countSummaryRuns
      dsimp only
      cases hfire : (obsApply st step).2 with
      | false => simpa using ih (obsApply st step).1
      | true =>
          have hl : (obsApply st step).1.hasSummarized = true := by
            rw [obs_latch_fire, hfire]
            simp
          rw [countSummaryRuns_latched rest (obsApply st step).1 hl]
          simp

/-- C8: the first time the state is `COMPLETED` with a non-empty transcript
and the latch clear, the summary effect runs the summarization; and over any
sequence of further non-reset steps (repeated effect firings, turns,
submissions, stops) it runs at most once in total — exactly once when the
effect is checked first. -/
theorem summary_one_shot (st : AppState)
    (h1 : st.status = .COMPLETED) (h2 : st.hasSummarized = false)
    (h3 : st.messages.length ≠ 0) :
    (∀ r, (summaryEffect st r).2 = true) ∧
    (∀ steps, countSummaryRuns st steps ≤ 1) ∧
    (∀ r steps,
      countSummaryRuns st (ObsStep.summary r :: steps) = 1) := by
  have hfire : ∀ r, (summaryEffect st r).2 = true := by
    intro r
    cases r <;> simp [summaryEffect, h1, h2, h3]
  refine ⟨hfire, fun steps => countSummaryRuns_le_one steps st, ?_⟩
  intro r steps
  unfold countSummaryRuns
  dsimp only
  have hfe : (obsApply st (ObsStep.summary r)).2 = true := hfire r
  rw [hfe]
  have hl : (obsApply st (ObsStep.summary r)).1.hasSummarized = true := by
    rw [obs_latch_fire, hfe]
    simp
  rw [countSummaryRuns_latched steps (obsApply st (ObsStep.summary r)).1 hl]
  simp

/-- C8 witness: on a concrete completed state, a trace of two effect
firings and a stop runs the summarization exactly once. -/
theorem summary_one_shot_witness :
    (stCompleted.status = .COMPLETED ∧ stCompleted.hasSummarized = false ∧
      stCompleted.messages.length ≠ 0) ∧
    (summaryEffect stCompleted (Except.ok "sum")).2 = true ∧
    countSummaryRuns stCompleted
      [ObsStep.summary (Except.ok "sum"), ObsStep.summary (Except.error "e"),
       ObsStep.stop] = 1 :=
  ⟨⟨rfl, rfl, by decide⟩,
   (summary_one_shot stCompleted rfl rfl (by decide)).1 (Except.ok "sum"),
   (summary_one_shot stCompleted rfl rfl (by decide)).2.2 (Except.ok "sum")
     [ObsStep.summary (Except.error "e"), ObsStep.stop]⟩

/-! ### C2: completion exactly at the turn budget -/

/-- `handleStart` keeps the turn count within the budget. -/
theorem inv_handleStart (envKey : String) (st : AppState) (h : Inv st) :
    Inv (handleStart envKey st) := by
  unfold handleStart
  split
  · exact h
  · dsimp only
    split
    · simpa [Inv, addMessage, turnBudget] using h
    · split
      · simp [Inv, addMessage, turnBudget]
      · split
        · simp [Inv, addMessage, turnBudget]
        · simp [Inv, addMessage, turnBudget]

/-- `handleStop` keeps the turn count within the budget. -/
theorem inv_handleStop (st : AppState) (h : Inv st) : Inv (handleStop st) := by
  simpa [Inv, handleStop, addMessage, turnBudget] using h

/-- `handleReset` keeps the turn count within the budget. -/
theorem inv_handleReset (st : AppState) (_h : Inv st) : Inv (handleReset st) := by
  simp [Inv, handleReset, resetConversationState, turnBudget]

/-- `handleUserSubmit` keeps the turn count within the budget. -/
theorem inv_handleUserSubmit (envKey : String) (st : AppState) (text : String)
    (h : Inv st) : Inv (handleUserSubmit envKey st text) := by
  unfold handleUserSubmit
  split
  · exact h
  · dsimp only
    split
    · split
      · simpa [Inv, addMessage, turnBudget] using h
      · split
        · split
          · simpa [Inv, addMessage, turnBudget] using h
          · simpa [Inv, addMessage, turnBudget] using h
        · simpa [Inv, addMessage, turnBudget] using h
    · split
      · split
        · simpa [Inv, addMessage, turnBudget] using h
        · simpa [Inv, addMessage, turnBudget] using h
      · simpa [Inv, addMessage, turnBudget] using h

/-- The automatic turn step keeps the turn count within the budget. -/
theorem inv_processTurn (gen : String → String → Except String String)
    (st : AppState) (h : Inv st) : Inv (processTurn gen st).1 := by
  unfold processTurn
  split
  · exact h
  · split
    · exact h
    · split
      · simpa [Inv, addMessage, turnBudget] using h
      · next hbud =>
          split
          · exact h
          · split
            · unfold Inv turnBudget
              simp only [addMessage]
              simp only [turnBudget, ge_iff_le, not_le] at hbud
              omega
            · simpa [Inv, addMessage, turnBudget] using h

/-- The summary effect keeps the turn count within the budget. -/
theorem inv_summaryEffect (r : Except String String) (st : AppState)
    (h : Inv st) : Inv (summaryEffect st r).1 := by
  unfold summaryEffect
  split
  · exact h
  · split
    · exact h
    · split
      · exact h
      · split <;> simpa [Inv, addMessage, turnBudget] using h

/-- Every reachable state keeps its turn count within the budget. -/
theorem reach_inv (st : AppState) (h : Reach st) : Inv st := by
  induction h with
  | init cfg svc => simp [Inv, mkInitial]
  | start envKey hst ih => exact inv_handleStart envKey _ ih
  | stop hst ih => exact inv_handleStop _ ih
  | reset hst ih => exact inv_handleReset _ ih
  | submit envKey text hst ih => exact inv_handleUserSubmit envKey _ text ih
  | turn gen hst ih => exact inv_processTurn gen _ ih
  | summary r hst ih => exact inv_summaryEffect r _ ih

/-- C2: on every reachable `ACTIVE` state with a speaker set, the automatic
turn step transitions to `COMPLETED` exactly when the turn count equals
`maxTurns * agentCount` (the budget is first reached at equality, since the
count never exceeds it along reachable states); on that step a system
limit-reached message is appended and no generation call is made; and no
state at or past the budget, or outside `ACTIVE`, ever produces a
generation call. -/
theorem completion_at_budget (st : AppState)
    (gen : String → String → Except String String) (spk : String)
    (hr : Reach st) (hs : st.status = .ACTIVE)
    (hc : st.currentSpeakerId = some spk) :
    ((processTurn gen st).1.status = .COMPLETED ↔
      st.turnCount = turnBudget st.config) ∧
    (st.turnCount = turnBudget st.config →
      (processTurn gen st).1.messages =
        st.messages ++
          [{ id := "id-" ++ toString st.freshCounter, senderId := "SYSTEM",
             text := "Conversation Limit Reached.", timestamp := st.freshCounter }] ∧
      (processTurn gen st).2 = none) ∧
    (∀ (st2 : AppState) (gen2 : String → String → Except String String),
      st2.status ≠ .ACTIVE ∨ st2.turnCount ≥ turnBudget st2.config →
      (processTurn gen2 st2).2 = none) := by
  have hinv := reach_inv st hr
  unfold Inv at hinv
  refine ⟨?_, ?_, ?_⟩
  · unfold processTurn
    rw [if_neg (by simp [hs]), hc]
    dsimp only
    by_cases hbud : st.turnCount ≥ turnBudget st.config
    · rw [if_pos hbud]
      constructor
      · intro _
        omega
      · intro _
        rfl
    · rw [if_neg hbud]
      constructor
      · intro hcompl
        exfalso
        cases hp : turnPrompt st.config st.messages spk with
        | none =>
            rw [hp] at hcompl
            dsimp only at hcompl
            rw [hs] at hcompl
            simp at hcompl
        | some p =>
            rw [hp] at hcompl
            dsimp only at hcompl
            cases hg : gen spk p with
            | ok r =>
                rw [hg] at hcompl
                dsimp only at hcompl
                simp [addMessage, hs] at hcompl
            | error e =>
                rw [hg] at hcompl
                dsimp only at hcompl
                simp [addMessage] at hcompl
      · intro heq
        omega
  · intro heq
    unfold processTurn
    rw [if_neg (by simp [hs]), hc]
    dsimp only
    rw [if_pos (by omega)]
    exact ⟨by simp [addMessage], rfl⟩
  · intro st2 gen2 hcond
    unfold processTurn
    by_cases hne2 : st2.status ≠ ChatStatus.ACTIVE
    · rw [if_pos hne2]
    · rw [if_neg hne2]
      have hge : st2.turnCount ≥ turnBudget st2.config := by
        rcases hcond with hne | hge
        · exact absurd hne hne2
        · exact hge
      cases hsp2 : st2.currentSpeakerId with
      | none => rfl
      | some spk2 =>
          dsimp only
          rw [if_pos hge]

/-- C2 witness: over the one-agent single-turn configuration, the reachable
state after one successful turn sits exactly at the budget; the next step
completes with the limit message and makes no generation call. -/
theorem completion_at_budget_witness :
    (stBudget.status = .ACTIVE ∧ stBudget.currentSpeakerId = some "A" ∧
      stBudget.turnCount = turnBudget stBudget.config) ∧
    ((processTurn (fun _ _ => Except.ok "x") stBudget).1.status = .COMPLETED ∧
     (processTurn (fun _ _ => Except.ok "x") stBudget).2 = none) := by
  have hr : Reach stBudget :=
    Reach.turn (fun _ _ => Except.ok "hi")
      (Reach.start "" (Reach.init cfgA ServiceState.initial))
  have h := completion_at_budget stBudget (fun _ _ => Except.ok "x") "A" hr
    (by decide) (by decide)
  refine ⟨⟨by decide, by decide, by decide⟩, ?_, (h.2.1 (by decide)).2⟩
  exact h.1.mpr (by decide)

end MultiAIChat
